import Mathlib

/-!
Shallow embedding of the session/player/session-handler core of the
ongaku client (src/ongaku/handler/base.py, src/ongaku/player.py,
src/ongaku/session.py, src/ongaku/impl/track.py, src/ongaku/rest.py),
together with theorems settling the frozen claims about it.

Python dicts are modelled as association lists with unique keys,
exceptions as explicit error results, asyncio task creation and event
dispatch as emitted effect/event lists, and JSON values as the
inductive type JVal below.
-/

namespace Ongaku

/-- A JSON value on the wire (model of the payloads orjson decodes). -/
inductive JVal where
  | jnull : JVal
  | jbool (b : Bool) : JVal
  | jnum (n : Int) : JVal
  | jstr (s : String) : JVal
  | jarr (xs : List JVal) : JVal
  | jobj (fields : List (String × JVal)) : JVal
deriving Repr

/-- The structured error payload of RestRequestError
(src/ongaku/errors.py lines 122-202): the timestamp is coerced to an
integer, the other fields are stored as received. -/
structure RestErrPayload where
  timestampMs : Int
  status : JVal
  error : JVal
  message : JVal
  path : JVal
  trace : Option JVal
deriving Repr

/-- Errors raised by the modelled code (src/ongaku/errors.py). -/
inductive OErr where
  | uniqueErr : OErr
  | sessionMissing : OErr
  | noSessions : OErr
  | playerMissing : OErr
  | sessionStart : OErr
  | playerConnect : OErr
  | playerQueue : OErr
  | valueErr : OErr
  | restEmpty : OErr
  | restStatus (status : Nat) (reason : Option String) : OErr
  | restRequest (e : RestErrPayload) : OErr
  | buildErr : OErr
  | typeErr : OErr
deriving Repr

/-- Session status enum (src/ongaku/impl/session.py, SessionStatus). -/
inductive SessionStatus where
  | notConnected : SessionStatus
  | connected : SessionStatus
  | failure : SessionStatus
deriving Repr, DecidableEq

/-- The attributes of a Session that the handler claims depend on
(src/ongaku/session.py, Session). -/
structure SessionV where
  name : String
  status : SessionStatus
deriving Repr, DecidableEq

/-- The attribute of a Player that the handler registry depends on
(src/ongaku/player.py, Player.guild_id). -/
structure PlayerV where
  guildId : Nat
deriving Repr, DecidableEq

/-- Background actions the handler triggers (asyncio.create_task of
session.start, await session.stop, await player.disconnect). -/
inductive HandlerEff where
  | startSession (name : String) : HandlerEff
  | stopSession (name : String) : HandlerEff
  | disconnectPlayer (guild : Nat) : HandlerEff
deriving Repr, DecidableEq

/-- The mutable state of SessionHandler (src/ongaku/handler/base.py). -/
structure HandlerState where
  isAlive : Bool
  currentSession : Option SessionV
  sessions : List (String × SessionV)
  players : List (Nat × PlayerV)
deriving Repr, DecidableEq

/-- Result of a handler operation: the state after the call (mutations
performed before a raise persist), the raised error if any, and the
background effects triggered. -/
structure OpResult (σ : Type) where
  state : σ
  err : Option OErr
  effs : List HandlerEff
deriving Repr

/-- SessionHandler.add_session (base.py lines 70-78): duplicate name
raises UniqueError; otherwise, when the handler is NOT alive the new
session is started as a background task, and the session is registered. -/
def add_session (h : HandlerState) (s : SessionV) : OpResult HandlerState :=
  if (List.lookup s.name h.sessions).isSome then
    ⟨h, some .uniqueErr, []⟩
  else
    let effs : List HandlerEff :=
      if !h.isAlive then [.startSession s.name] else []
    ⟨{ h with sessions := h.sessions ++ [(s.name, s)] }, none, effs⟩

/-- First session whose status is CONNECTED, in registry order
(the scan in SessionHandler.fetch_session). -/
def firstConnected : List SessionV → Option SessionV
  | [] => none
  | s :: rest =>
    if s.status = SessionStatus.connected then some s else firstConnected rest

/-- SessionHandler.fetch_session (base.py lines 80-95): named lookup, or
the cached current session, or the first CONNECTED session (cached). -/
def fetch_session (h : HandlerState) (name : Option String) :
    HandlerState × Except OErr SessionV :=
  match name with
  | some n =>
    match List.lookup n h.sessions with
    | some s => (h, .ok s)
    | none => (h, .error .sessionMissing)
  | none =>
    match h.currentSession with
    | some s => (h, .ok s)
    | none =>
      match firstConnected (h.sessions.map Prod.snd) with
      | some s => ({ h with currentSession := some s }, .ok s)
      | none => (h, .error .noSessions)

/-- SessionHandler.delete_session (base.py lines 97-103): pop the named
session (missing name raises SessionMissingError) and stop it. -/
def delete_session (h : HandlerState) (name : String) :
    OpResult HandlerState :=
  match List.lookup name h.sessions with
  | none => ⟨h, some .sessionMissing, []⟩
  | some s =>
    ⟨{ h with sessions := h.sessions.eraseP (fun kv => kv.1 == name) },
      none, [.stopSession s.name]⟩

/-- SessionHandler.add_player (base.py lines 108-114): duplicate guild id
raises UniqueError; otherwise the player is registered. -/
def add_player (h : HandlerState) (p : PlayerV) : OpResult HandlerState :=
  if (List.lookup p.guildId h.players).isSome then
    ⟨h, some .uniqueErr, []⟩
  else
    ⟨{ h with players := h.players ++ [(p.guildId, p)] }, none, []⟩

/-- Keys absent from an association list are not found by lookup. -/
theorem lookup_eq_none_of_not_mem_keys {κ α : Type} [BEq κ] [LawfulBEq κ]
    (k : κ) (l : List (κ × α)) (h : k ∉ l.map Prod.fst) :
    List.lookup k l = none := by
  induction l with
  | nil => rfl
  | cons kv rest ih =>
    simp only [List.map_cons, List.mem_cons, not_or] at h
    have hk : (k == kv.1) = false := by
      cases hbe : k == kv.1 with
      | true => exact absurd (eq_of_beq hbe) h.1
      | false => rfl
    simpa [List.lookup, hk] using ih h.2

/-- Erasing the binding for a key from an association list with unique
keys makes that key unresolvable. -/
theorem lookup_eraseP_key {κ α : Type} [BEq κ] [LawfulBEq κ]
    (k : κ) (l : List (κ × α)) (h : (l.map Prod.fst).Nodup) :
    List.lookup k (l.eraseP (fun kv => kv.1 == k)) = none := by
  induction l with
  | nil => rfl
  | cons kv rest ih =>
    simp only [List.map_cons, List.nodup_cons] at h
    by_cases hk : kv.1 = k
    · have hb : (kv.1 == k) = true := by simp [hk]
      simp only [List.eraseP_cons, hb, cond_true]
      exact lookup_eq_none_of_not_mem_keys k rest (hk ▸ h.1)
    · have hb : (kv.1 == k) = false := by simp [hk]
      simp only [List.eraseP_cons, hb, cond_false]
      have hkk : (k == kv.1) = false := by
        cases hbe : k == kv.1 with
        | true => exact absurd (eq_of_beq hbe).symm hk
        | false => rfl
      simpa [List.lookup, hkk] using ih h.2

/-- C8: add_session with a name already present raises a uniqueness error
and leaves the handler state (hence the existing session) unchanged;
add_player behaves the same way for a duplicate guild id. -/
theorem add_session_add_player_unique (h : HandlerState) (s : SessionV)
    (p : PlayerV) :
    ((List.lookup s.name h.sessions).isSome →
      add_session h s = ⟨h, some .uniqueErr, []⟩) ∧
    ((List.lookup p.guildId h.players).isSome →
      add_player h p = ⟨h, some .uniqueErr, []⟩) := by
  constructor
  · intro hs
    simp [add_session, hs]
  · intro hp
    simp [add_player, hp]

/-- A handler state with one registered session and one registered player,
used to instantiate the duplicate-key theorem. -/
def dupHandler : HandlerState :=
  ⟨true, none, [("n", ⟨"n", .connected⟩)], [(7, ⟨7⟩)]⟩

/-- Witness for the duplicate-key theorem at a concrete handler state. -/
theorem add_session_add_player_unique_witness :
    add_session dupHandler ⟨"n", .notConnected⟩
      = ⟨dupHandler, some .uniqueErr, []⟩ ∧
    add_player dupHandler ⟨7⟩ = ⟨dupHandler, some .uniqueErr, []⟩ :=
  ⟨(add_session_add_player_unique dupHandler ⟨"n", .notConnected⟩ ⟨7⟩).1
      (by decide),
    (add_session_add_player_unique dupHandler ⟨"n", .notConnected⟩ ⟨7⟩).2
      (by decide)⟩

/-- An alive handler with an empty registry. -/
def aliveHandler : HandlerState := ⟨true, none, [], []⟩

/-- A not-yet-started handler with an empty registry. -/
def deadHandler : HandlerState := ⟨false, none, [], []⟩

/-- A fresh session to be added. -/
def freshSession : SessionV := ⟨"node", .notConnected⟩

/-- C1 evaluated on the code: add_session on an ALIVE handler registers
the fresh session but triggers no start (empty effect list), while
add_session on a handler that is NOT alive does start it - the opposite
of the specified behaviour (base.py line 74 tests `not self.is_alive`). -/
theorem add_session_start_inverted :
    add_session aliveHandler freshSession
      = ⟨{ aliveHandler with sessions := [("node", freshSession)] },
          none, []⟩ ∧
    add_session deadHandler freshSession
      = ⟨{ deadHandler with sessions := [("node", freshSession)] },
          none, [.startSession "node"]⟩ :=
  ⟨rfl, rfl⟩

/-- C10: deleting the session that is also the cached current session
removes it from the registry and stops it, but never clears the cache:
a subsequent fetch_session with no name still returns the deleted
session. -/
theorem delete_session_keeps_stale_cache (h : HandlerState) (s : SessionV)
    (hnodup : (h.sessions.map Prod.fst).Nodup)
    (hcur : h.currentSession = some s)
    (hreg : List.lookup s.name h.sessions = some s) :
    (delete_session h s.name).err = none ∧
    (delete_session h s.name).effs = [.stopSession s.name] ∧
    List.lookup s.name (delete_session h s.name).state.sessions = none ∧
    (delete_session h s.name).state.currentSession = h.currentSession ∧
    fetch_session (delete_session h s.name).state none
      = ((delete_session h s.name).state, .ok s) := by
  have hdel : delete_session h s.name
      = ⟨{ h with sessions := h.sessions.eraseP (fun kv => kv.1 == s.name) },
          none, [.stopSession s.name]⟩ := by
    simp [delete_session, hreg]
  refine ⟨by rw [hdel], by rw [hdel], ?_, by rw [hdel], ?_⟩
  · rw [hdel]
    exact lookup_eraseP_key s.name h.sessions hnodup
  · rw [hdel]
    simp [fetch_session, hcur]

/-- A handler whose only session is also the cached current session. -/
def cachedHandler : HandlerState :=
  ⟨true, some ⟨"n", .connected⟩, [("n", ⟨"n", .connected⟩)], []⟩

/-- Witness for the stale-cache theorem at a concrete handler state. -/
theorem delete_session_keeps_stale_cache_witness :
    (delete_session cachedHandler "n").err = none ∧
    (delete_session cachedHandler "n").effs = [.stopSession "n"] ∧
    List.lookup "n" (delete_session cachedHandler "n").state.sessions
      = none ∧
    (delete_session cachedHandler "n").state.currentSession
      = cachedHandler.currentSession ∧
    fetch_session (delete_session cachedHandler "n").state none
      = ((delete_session cachedHandler "n").state, .ok ⟨"n", .connected⟩) :=
  delete_session_keeps_stale_cache cachedHandler ⟨"n", .connected⟩
    (by decide) rfl (by decide)

/-- Track information (src/ongaku/impl/track.py, TrackInfo). -/
structure TrackInfo where
  identifier : String
  isSeekable : Bool
  author : String
  length : Int
  isStream : Bool
  position : Int
  title : String
  sourceName : String
  uri : Option String
  artworkUrl : Option String
  isrc : Option String
deriving Repr

/-- Track (src/ongaku/impl/track.py, Track): encoded data, info, plugin
info, user data and the requestor side-channel. -/
structure Track where
  encoded : String
  info : TrackInfo
  pluginInfo : List (String × JVal)
  user_data : List (String × JVal)
  requestor : Option Nat
deriving Repr

/-- Server-reported player state (src/ongaku/impl/player.py, State). -/
structure PState where
  time : Int
  position : Int
  connected : Bool
  ping : Int
deriving Repr

/-- Voice connection data (src/ongaku/impl/player.py, Voice). -/
structure Voice where
  token : String
  endpoint : String
  sessionId : String
deriving Repr

/-- Track end reason enum (src/ongaku/events.py, TrackEndReasonType). -/
inductive TrackEndReason where
  | finished : TrackEndReason
  | loadFailed : TrackEndReason
  | stopped : TrackEndReason
  | replaced : TrackEndReason
  | cleanup : TrackEndReason
deriving Repr, DecidableEq

/-- The mutable state of a Player (src/ongaku/player.py, Player).
sessionId models the owning session's session_id, consulted through
Session._get_session_id. -/
structure PlayerState where
  guildId : Nat
  channelId : Option Nat
  isAlive : Bool
  isPaused : Bool
  queue : List Track
  autoplay : Bool
  loop : Bool
  volume : Int
  connected : Bool
  pstate : Option PState
  voice : Option Voice
  filters : Option JVal
  sessionId : Option String
deriving Repr

/-- Arguments of a REST player update issued through
Player._update_player (none models hikari.UNDEFINED; for track,
some none models an explicit null that clears the loaded track). -/
structure UpdateArgs where
  track : Option (Option Track)
  position : Option Int
  endTime : Option Int
  volume : Option Int
  paused : Option Bool
  filters : Option (Option JVal)
  voice : Option Voice
  noReplace : Bool
deriving Repr

/-- An update that only sets the track field. -/
def trackArgs (t : Option Track) (noReplace : Bool) : UpdateArgs :=
  ⟨some t, none, none, none, none, none, none, noReplace⟩

/-- Outward REST calls a player operation issues. -/
inductive PlayerEff where
  | updatePlayer (args : UpdateArgs) : PlayerEff
deriving Repr

/-- Events a player dispatches on the event bus
(src/ongaku/events.py, QueueEmptyEvent and QueueNextEvent). -/
inductive PlayerEvent where
  | queueEmpty (guildId : Nat) (oldTrack : Track) : PlayerEvent
  | queueNext (guildId : Nat) (newTrack oldTrack : Track) : PlayerEvent
deriving Repr

/-- The player object the REST update responds with; only the fields
Player._update_player copies back are modelled. -/
structure PlayerResp where
  volume : Int
  isPaused : Bool
  state : PState
  voice : Voice
  filters : Option JVal
deriving Repr

/-- The local-state adoption at the end of Player._update_player
(player.py lines 825-830): volume, paused flag, state, voice, filters
and connected flag are taken from the REST response; the queue is not
touched. -/
def applyResp (p : PlayerState) (r : PlayerResp) : PlayerState :=
  { p with
    volume := r.volume
    isPaused := r.isPaused
    pstate := some r.state
    voice := some r.voice
    filters := r.filters
    connected := r.state.connected }

/-- Player._update_player (player.py lines 792-830): requires the
session id (Session._get_session_id raises SessionStartError when it is
absent), requires at least one field change (rest.py update_player
raises ValueError otherwise), issues the PATCH and adopts the response. -/
def updatePlayerCall (p : PlayerState) (args : UpdateArgs)
    (resp : PlayerResp) : Except OErr (PlayerState × List PlayerEff) :=
  match p.sessionId with
  | none => .error .sessionStart
  | some _ =>
    if args.track.isNone && args.position.isNone && args.endTime.isNone &&
        args.volume.isNone && args.paused.isNone && args.filters.isNone &&
        args.voice.isNone then
      .error .valueErr
    else
      .ok (applyResp p resp, [.updatePlayer args])

/-- Tag a track with a requestor when one is given (the assignment in
Player.play and Player.add). -/
def tagRequestor (t : Track) (requestor : Option Nat) : Track :=
  match requestor with
  | some r => { t with requestor := some r }
  | none => t

/-- Player.play (player.py lines 310-357): requires a channel, requires
a track or a non-empty queue, pushes a given track to the front, clears
the paused flag and loads the front of the queue with no_replace false. -/
def play (p : PlayerState) (track : Option Track) (requestor : Option Nat)
    (resp : PlayerResp) : Except OErr (PlayerState × List PlayerEff) :=
  if p.channelId = none then .error .playerConnect
  else if p.queue.length = 0 ∧ track.isNone then .error .playerQueue
  else
    let p1 :=
      match track with
      | some t => { p with queue := tagRequestor t requestor :: p.queue }
      | none => p
    match p1.queue with
    | [] => .error .playerQueue
    | t0 :: rest =>
      updatePlayerCall
        { p1 with queue := t0 :: rest, isPaused := false }
        (trackArgs (some t0) false) resp

/-- Player.stop (player.py lines 444-471): set the paused flag locally
and clear the loaded track remotely; the queue is not touched. -/
def stop (p : PlayerState) (resp : PlayerResp) :
    Except OErr (PlayerState × List PlayerEff) :=
  updatePlayerCall { p with isPaused := true } (trackArgs none false) resp

/-- Player.shuffle (player.py lines 473-492): requires more than 2
queued tracks, protects index 0 and reorders the rest; the reordering
random.shuffle performs is abstracted as the function perm. -/
def shuffle (p : PlayerState) (perm : List Track → List Track) :
    Except OErr PlayerState :=
  if p.queue.length ≤ 2 then .error .playerQueue
  else
    match p.queue with
    | [] => .error .playerQueue
    | t0 :: rest => .ok { p with queue := t0 :: perm rest }

/-- Player.skip (player.py lines 494-541): positive amount required,
empty queue is an error, an amount at least the queue length clears
queue and remote track, otherwise the front entries are popped and the
new front is loaded; no_replace is always false. -/
def skip (p : PlayerState) (amount : Int) (resp : PlayerResp) :
    Except OErr (PlayerState × List PlayerEff) :=
  if amount ≤ 0 then .error .valueErr
  else if p.queue.length = 0 then .error .playerQueue
  else if (p.queue.length : Int) ≤ amount then
    updatePlayerCall { p with queue := [] } (trackArgs none false) resp
  else
    match p.queue.drop amount.toNat with
    | [] => .error .playerQueue
    | t0 :: rest =>
      updatePlayerCall { p with queue := t0 :: rest }
        (trackArgs (some t0) false) resp

/-- Player.remove for an integer position (player.py lines 558-594),
restricted to the non-negative indices the autoplay handler uses: empty
queue raises, an out-of-range pop raises, otherwise the entry at the
index is removed. -/
def removeAt (p : PlayerState) (idx : Nat) : Except OErr PlayerState :=
  if p.queue.length = 0 then .error .playerQueue
  else if idx < p.queue.length then
    .ok { p with queue := p.queue.eraseIdx idx }
  else .error .playerQueue

/-- The TrackEndEvent payload a player reacts to. -/
structure TrackEndEv where
  guildId : Nat
  track : Track
  reason : TrackEndReason
deriving Repr

/-- The construction events.QueueEmptyEvent(...) at player.py lines
864-869: the __init__ at events.py lines 716-728 takes (app, client,
session, guild_id, old_track), but the call passes only
(client, session, guild_id=..., old_track=...), so the session
parameter is never bound and Python raises TypeError on every
execution. The intended payload arguments are evaluated and then
discarded by the failing call. -/
def queueEmptyEventCtor (_guildId : Nat) (_oldTrack : Track) :
    Except OErr PlayerEvent :=
  .error .typeErr

/-- The construction events.QueueNextEvent(...) at player.py lines
891-899: the __init__ at events.py lines 768-783 takes (app, client,
session, guild_id, track, old_track), but the call passes five
positional arguments, so the old_track parameter is never bound and
Python raises TypeError on every execution. -/
def queueNextEventCtor (_guildId : Nat) (_newTrack _oldTrack : Track) :
    Except OErr PlayerEvent :=
  .error .typeErr

/-- Result of the autoplay handler: the player state after the call
(mutations performed before a raise persist), the events dispatched,
the REST effects already issued, and the error that escaped the
handler, if any. -/
structure PResult where
  state : PlayerState
  events : List PlayerEvent
  effs : List PlayerEff
  err : Option OErr
deriving Repr

/-- Player._track_end_event (player.py lines 832-899): the autoplay
handler. The queue-empty construction happens before remove(0) and its
dispatch; the queue-advanced construction happens after play(), inside
the dispatch call, so the play update has already been issued when it
raises. -/
def track_end_event (p : PlayerState) (ev : TrackEndEv)
    (resp : PlayerResp) : PResult :=
  match p.sessionId with
  | none => ⟨p, [], [], some .sessionStart⟩
  | some _ =>
    if ev.guildId ≠ p.guildId ∨ p.autoplay = false then ⟨p, [], [], none⟩
    else if ev.reason ≠ .finished ∧ ev.reason ≠ .loadFailed then
      ⟨p, [], [], none⟩
    else if p.queue.length = 0 then ⟨p, [], [], none⟩
    else if p.queue.length = 1 ∧ p.loop = false then
      match p.queue with
      | [] => ⟨p, [], [], some .playerQueue⟩
      | t0 :: _ =>
        match queueEmptyEventCtor p.guildId t0 with
        | .error e => ⟨p, [], [], some e⟩
        | .ok newEvent =>
          match removeAt p 0 with
          | .error e => ⟨p, [], [], some e⟩
          | .ok p1 => ⟨p1, [newEvent], [], none⟩
    else
      match (if p.loop = false then removeAt p 0 else .ok p) with
      | .error e => ⟨p, [], [], some e⟩
      | .ok p1 =>
        match play p1 none none resp with
        | .error e => ⟨p1, [], [], some e⟩
        | .ok (p2, effs) =>
          match p2.queue with
          | [] => ⟨p2, [], effs, some .playerQueue⟩
          | t0 :: _ =>
            match queueNextEventCtor p.guildId t0 ev.track with
            | .error e => ⟨p2, [], effs, some e⟩
            | .ok nextEvent => ⟨p2, [nextEvent], effs, none⟩

/-- C9: stop issues exactly one player update that clears the loaded
track with no_replace false, the update is issued from a state whose
paused flag has been set, and the local queue survives unchanged. -/
theorem stop_preserves_queue (p : PlayerState) (resp : PlayerResp)
    (sid : String) (hsid : p.sessionId = some sid) :
    stop p resp
      = .ok (applyResp { p with isPaused := true } resp,
          [.updatePlayer (trackArgs none false)]) ∧
    (applyResp { p with isPaused := true } resp).queue = p.queue ∧
    ({ p with isPaused := true } : PlayerState).isPaused = true ∧
    (trackArgs none false).track = some none ∧
    (trackArgs none false).noReplace = false := by
  refine ⟨?_, rfl, rfl, rfl, rfl⟩
  simp [stop, updatePlayerCall, hsid, trackArgs]

/-- Track information used by the concrete witnesses. -/
def sampleInfo (s : String) : TrackInfo :=
  ⟨s, true, "auth", 1000, false, 0, s, "src", none, none, none⟩

/-- A concrete track used by the witnesses. -/
def sampleTrack (s : String) : Track := ⟨s, sampleInfo s, [], [], none⟩

/-- A concrete REST player-update response used by the witnesses. -/
def sampleResp : PlayerResp :=
  ⟨100, false, ⟨0, 0, true, 1⟩, ⟨"tk", "ep", "vs"⟩, none⟩

/-- A concrete live player with the given queue, autoplay on and loop
off, used by the witnesses. -/
def playerQ (q : List Track) : PlayerState :=
  ⟨1, some 2, true, true, q, true, false, -1, false, none, none, none,
    some "sid"⟩

/-- Witness for the stop theorem at a concrete player. -/
theorem stop_preserves_queue_witness :
    stop (playerQ [sampleTrack "A"]) sampleResp
      = .ok (applyResp { playerQ [sampleTrack "A"] with isPaused := true }
            sampleResp,
          [.updatePlayer (trackArgs none false)]) ∧
    (applyResp { playerQ [sampleTrack "A"] with isPaused := true }
        sampleResp).queue = (playerQ [sampleTrack "A"]).queue ∧
    ({ playerQ [sampleTrack "A"] with isPaused := true } :
        PlayerState).isPaused = true ∧
    (trackArgs none false).track = some none ∧
    (trackArgs none false).noReplace = false :=
  stop_preserves_queue (playerQ [sampleTrack "A"]) sampleResp "sid" rfl

/-- C5: skip with a non-positive amount raises ValueError, with an empty
queue raises a queue error, with amount at least the queue length
empties the queue and issues a clear-track update, and otherwise pops
exactly amount entries and loads the new front; no_replace is always
false. -/
theorem skip_spec (p : PlayerState) (amount : Int) (resp : PlayerResp)
    (sid : String) (hsid : p.sessionId = some sid) :
    (amount ≤ 0 → skip p amount resp = .error .valueErr) ∧
    (0 < amount → p.queue = [] →
      skip p amount resp = .error .playerQueue) ∧
    (0 < amount → p.queue ≠ [] → (p.queue.length : Int) ≤ amount →
      skip p amount resp
        = .ok (applyResp { p with queue := [] } resp,
            [.updatePlayer (trackArgs none false)])) ∧
    (0 < amount → ∀ t0 rest, p.queue.drop amount.toNat = t0 :: rest →
      skip p amount resp
        = .ok (applyResp { p with queue := t0 :: rest } resp,
            [.updatePlayer (trackArgs (some t0) false)])) := by
  refine ⟨?_, ?_, ?_, ?_⟩
  · intro h
    simp [skip, h]
  · intro h1 h2
    simp [skip, h2, not_le.mpr h1]
  · intro h1 h2 h3
    have hne : p.queue.length ≠ 0 := by
      simpa using h2
    simp [skip, not_le.mpr h1, hne, h3, updatePlayerCall, hsid, trackArgs]
  · intro h1 t0 rest hdrop
    have hlt : amount.toNat < p.queue.length := by
      by_contra hge
      rw [List.drop_eq_nil_of_le (le_of_not_lt hge)] at hdrop
      exact List.noConfusion hdrop
    have hnat : (amount.toNat : Int) = amount := Int.toNat_of_nonneg h1.le
    have hlen : ¬ ((p.queue.length : Int) ≤ amount) := by omega
    have hne : p.queue.length ≠ 0 := by omega
    simp [skip, not_le.mpr h1, hne, hlen, hdrop, updatePlayerCall, hsid,
      trackArgs]

/-- Witness for the skip theorem: skipping 5 of a 2-track queue clears
the queue and the remote track, skipping 1 pops the front and loads the
next track. -/
theorem skip_spec_witness :
    skip (playerQ [sampleTrack "A", sampleTrack "B"]) 5 sampleResp
      = .ok (applyResp
            { playerQ [sampleTrack "A", sampleTrack "B"] with queue := [] }
            sampleResp,
          [.updatePlayer (trackArgs none false)]) ∧
    skip (playerQ [sampleTrack "A", sampleTrack "B"]) 1 sampleResp
      = .ok (applyResp
            { playerQ [sampleTrack "A", sampleTrack "B"] with
                queue := [sampleTrack "B"] }
            sampleResp,
          [.updatePlayer (trackArgs (some (sampleTrack "B")) false)]) :=
  ⟨(skip_spec (playerQ [sampleTrack "A", sampleTrack "B"]) 5 sampleResp
        "sid" rfl).2.2.1 (by decide) (by simp [playerQ]) (by decide),
    (skip_spec (playerQ [sampleTrack "A", sampleTrack "B"]) 1 sampleResp
        "sid" rfl).2.2.2 (by decide) (sampleTrack "B") [] rfl⟩

/-- C6: shuffle on a queue of 2 or fewer tracks raises a queue error;
on a longer queue it keeps index 0 in place, applies the abstracted
random reordering to the rest, and preserves the queue as a multiset. -/
theorem shuffle_spec (p : PlayerState) (perm : List Track → List Track)
    (hperm : ∀ l, List.Perm (perm l) l) :
    (p.queue.length ≤ 2 → shuffle p perm = .error .playerQueue) ∧
    (∀ t0 rest, p.queue = t0 :: rest → 2 < p.queue.length →
      shuffle p perm = .ok { p with queue := t0 :: perm rest } ∧
      (t0 :: perm rest).head? = p.queue.head? ∧
      List.Perm (t0 :: perm rest) p.queue) := by
  constructor
  · intro h
    simp [shuffle, h]
  · intro t0 rest hq hlen
    have hlen' : ¬ ((t0 :: rest).length ≤ 2) := by
      rw [← hq]
      omega
    refine ⟨?_, by rw [hq]; rfl, ?_⟩
    · simp only [shuffle, hq]
      rw [if_neg hlen']
    · rw [hq]
      exact List.Perm.cons t0 (hperm rest)

/-- Witness for the shuffle theorem with the concrete reordering that
reverses the tail of a 3-track queue. -/
theorem shuffle_spec_witness :
    shuffle (playerQ [sampleTrack "A", sampleTrack "B", sampleTrack "C"])
        List.reverse
      = .ok { playerQ [sampleTrack "A", sampleTrack "B", sampleTrack "C"]
            with queue := sampleTrack "A"
              :: List.reverse [sampleTrack "B", sampleTrack "C"] } ∧
    (sampleTrack "A" :: List.reverse [sampleTrack "B", sampleTrack "C"]
        ).head?
      = (playerQ [sampleTrack "A", sampleTrack "B", sampleTrack "C"]
          ).queue.head? ∧
    List.Perm
      (sampleTrack "A" :: List.reverse [sampleTrack "B", sampleTrack "C"])
      (playerQ [sampleTrack "A", sampleTrack "B", sampleTrack "C"]).queue :=
  (shuffle_spec
      (playerQ [sampleTrack "A", sampleTrack "B", sampleTrack "C"])
      List.reverse (fun l => l.reverse_perm)).2
    (sampleTrack "A") [sampleTrack "B", sampleTrack "C"] rfl (by decide)

/-- C2 evaluated on the code: with autoplay on, loop off and reason
FINISHED for this guild, both event constructions raise TypeError
(their __init__ signatures gained a leading app parameter the calls at
player.py lines 864 and 892 never pass). A one-track queue is left
un-emptied with no queue-empty event, since the construction raises
before remove(0); a two-track queue does advance to the next track and
does start its playback, but no queue-advanced event is dispatched
and the TypeError escapes the handler. A STOPPED end and an
already-empty queue are still no-ops, as claimed. -/
theorem track_end_event_typeerror_eval :
    track_end_event (playerQ [sampleTrack "A"])
        ⟨1, sampleTrack "A", .finished⟩ sampleResp
      = ⟨playerQ [sampleTrack "A"], [], [], some .typeErr⟩ ∧
    track_end_event (playerQ [sampleTrack "A", sampleTrack "B"])
        ⟨1, sampleTrack "A", .finished⟩ sampleResp
      = ⟨applyResp
            { playerQ [sampleTrack "A", sampleTrack "B"] with
                queue := [sampleTrack "B"], isPaused := false }
            sampleResp,
          [], [.updatePlayer (trackArgs (some (sampleTrack "B")) false)],
          some .typeErr⟩ ∧
    track_end_event (playerQ [sampleTrack "A", sampleTrack "B"])
        ⟨1, sampleTrack "A", .stopped⟩ sampleResp
      = ⟨playerQ [sampleTrack "A", sampleTrack "B"], [], [], none⟩ ∧
    track_end_event (playerQ []) ⟨1, sampleTrack "A", .finished⟩
        sampleResp
      = ⟨playerQ [], [], [], none⟩ :=
  ⟨rfl, rfl, rfl, rfl⟩

/-- The decimal digit character for a digit value (model of Python's
integer printing). -/
def digitChar (d : Nat) : Char := Char.ofNat (48 + d)

/-- The decimal character sequence of a natural number, most significant
digit first (model of Python's str on a non-negative int). -/
def decChars (n : Nat) : List Char :=
  if n = 0 then [digitChar 0] else (Nat.digits 10 n).reverse.map digitChar

/-- Python's str applied to a snowflake (the encoding in
RESTClient.update_player, rest.py line 468). -/
def pyStrNat (n : Nat) : String := String.mk (decChars n)

/-- Whether a character is a decimal digit. -/
def charIsDigit (c : Char) : Bool := 48 ≤ c.toNat && c.toNat ≤ 57

/-- Python's int applied to a decimal character sequence: fails on an
empty or non-digit input, otherwise folds the digits. -/
def pyIntOfChars (l : List Char) : Option Nat :=
  if !l.isEmpty && l.all charIsDigit then
    some (l.foldl (fun a c => a * 10 + (c.toNat - 48)) 0)
  else none

/-- Python's int applied to a string (the parse inside
hikari.Snowflake, used by Track._from_payload). -/
def pyIntOfString (s : String) : Option Nat := pyIntOfChars s.data

/-- The code of a digit character decodes back to the digit. -/
theorem digitChar_toNat (d : Nat) (h : d < 10) :
    (digitChar d).toNat = 48 + d := by
  interval_cases d <;> decide

/-- Digit characters satisfy the digit test. -/
theorem charIsDigit_digitChar (d : Nat) (h : d < 10) :
    charIsDigit (digitChar d) = true := by
  interval_cases d <;> decide

/-- Folding the decode step over printed digits folds the digits. -/
theorem foldl_map_digitChar (L : List Nat) (hL : ∀ d ∈ L, d < 10)
    (a : Nat) :
    (L.map digitChar).foldl (fun a c => a * 10 + (c.toNat - 48)) a
      = L.foldl (fun a d => a * 10 + d) a := by
  induction L generalizing a with
  | nil => rfl
  | cons d rest ih =>
    simp only [List.map_cons, List.foldl_cons]
    rw [digitChar_toNat d (hL d (.head _)), Nat.add_sub_cancel_left]
    exact ih (fun d' hd => hL d' (.tail _ hd)) _

/-- Folding most-significant-first digits recovers the little-endian
digit value. -/
theorem foldl_reverse_digits (L : List Nat) :
    L.reverse.foldl (fun a d => a * 10 + d) 0 = Nat.ofDigits 10 L := by
  rw [List.foldl_reverse]
  induction L with
  | nil => simp [Nat.ofDigits_nil]
  | cons d rest ih =>
    simp only [List.foldr_cons, ih, Nat.ofDigits_cons]
    omega

/-- The printed digit characters of a non-zero number are non-empty. -/
theorem decChars_ne_nil (n : Nat) : decChars n ≠ [] := by
  by_cases h0 : n = 0
  · subst h0
    decide
  · simp only [decChars, if_neg h0]
    intro hmap
    exact (Nat.digits_ne_nil_iff_ne_zero.mpr h0)
      (by simpa using List.map_eq_nil_iff.mp hmap)

/-- Round trip: Python's int undoes Python's str on a natural number. -/
theorem pyIntOfString_pyStrNat (n : Nat) :
    pyIntOfString (pyStrNat n) = some n := by
  by_cases h0 : n = 0
  · subst h0
    decide
  · have hdata : (pyStrNat n).data = (Nat.digits 10 n).reverse.map digitChar := by
      simp [pyStrNat, decChars, h0]
    have hlt : ∀ d ∈ (Nat.digits 10 n).reverse, d < 10 := by
      intro d hd
      exact Nat.digits_lt_base (by norm_num) (List.mem_reverse.mp hd)
    have hne : ((Nat.digits 10 n).reverse.map digitChar).isEmpty = false := by
      have := decChars_ne_nil n
      simp only [decChars, if_neg h0] at this
      simpa [List.isEmpty_iff] using this
    have hall : ((Nat.digits 10 n).reverse.map digitChar).all charIsDigit
        = true := by
      rw [List.all_eq_true]
      intro c hc
      rcases List.mem_map.mp hc with ⟨d, hd, rfl⟩
      exact charIsDigit_digitChar d (hlt d hd)
    rw [pyIntOfString, hdata, pyIntOfChars, hne, hall]
    simp only [Bool.not_false, Bool.true_and, if_pos]
    rw [foldl_map_digitChar _ hlt, foldl_reverse_digits,
      Nat.ofDigits_digits]

/-- Python dict assignment on an association list with unique keys:
overwrite the first binding of the key, or append a new one. -/
def dictSet (m : List (String × JVal)) (k : String) (v : JVal) :
    List (String × JVal) :=
  match m with
  | [] => [(k, v)]
  | (k', v') :: rest =>
    if k' = k then (k, v) :: rest else (k', v') :: dictSet rest k v

/-- Python dict pop: remove the binding of the key. -/
def dictPop (m : List (String × JVal)) (k : String) :
    List (String × JVal) :=
  m.eraseP (fun kv => kv.1 == k)

/-- After a dict assignment, looking the key up yields the value. -/
theorem lookup_dictSet (m : List (String × JVal)) (k : String) (v : JVal) :
    List.lookup k (dictSet m k v) = some v := by
  induction m with
  | nil => simp [dictSet, List.lookup]
  | cons kv rest ih =>
    by_cases hk : kv.1 = k
    · simp [dictSet, hk, List.lookup]
    · have hkk : (k == kv.1) = false := by
        cases hbe : k == kv.1 with
        | true => exact absurd (eq_of_beq hbe).symm hk
        | false => rfl
      cases kv with
      | mk k' v' =>
        simp only at hk hkk
        simp [dictSet, hk, List.lookup, hkk, ih]

/-- Popping a key that is not bound leaves the dict unchanged. -/
theorem dictPop_of_lookup_none (m : List (String × JVal)) (k : String)
    (h : List.lookup k m = none) : dictPop m k = m := by
  induction m with
  | nil => rfl
  | cons kv rest ih =>
    by_cases hk : kv.1 = k
    · exfalso
      have : (k == kv.1) = true := by simp [hk]
      simp [List.lookup, this] at h
    · have hkk : (k == kv.1) = false := by
        cases hbe : k == kv.1 with
        | true => exact absurd (eq_of_beq hbe).symm hk
        | false => rfl
      have hb : (kv.1 == k) = false := by
        cases hbe : kv.1 == k with
        | true => exact absurd (eq_of_beq hbe) hk
        | false => rfl
      simp only [List.lookup, hkk] at h
      simp only [dictPop, List.eraseP_cons, hb, cond_false]
      rw [show List.eraseP (fun kv => kv.1 == k) rest = dictPop rest k
        from rfl, ih h]

/-- Python truthiness of a JSON value. -/
def jtruthy : JVal → Bool
  | .jnull => false
  | .jbool b => b
  | .jnum n => n != 0
  | .jstr s => !s.data.isEmpty
  | .jarr xs => !xs.isEmpty
  | .jobj fs => !fs.isEmpty

/-- hikari.Snowflake applied to a decoded JSON value: parse a string,
accept a non-negative number, coerce a boolean; anything else fails. -/
def snowflakeOfJVal : JVal → Option Nat
  | .jstr s => pyIntOfString s
  | .jnum n => if 0 ≤ n then some n.toNat else none
  | .jbool b => some (if b then 1 else 0)
  | _ => none

/-- The key of the requestor side-channel. -/
def requestorKey : String := "ongaku_requestor"

/-- Track._from_payload (impl/track.py lines 116-137) restricted to the
userData side-channel: a missing or falsy userData becomes an empty
dict, the requestor key is popped out of it, and a truthy popped value
becomes the requestor snowflake. The payload's other fields arrive
already typed. -/
def trackDecode (encoded : String) (info : TrackInfo)
    (pluginInfo : List (String × JVal))
    (userData : Option (List (String × JVal))) : Except OErr Track :=
  let ud := userData.getD []
  let ud' := dictPop ud requestorKey
  match List.lookup requestorKey ud with
  | none => .ok ⟨encoded, info, pluginInfo, ud', none⟩
  | some v =>
    if jtruthy v then
      match snowflakeOfJVal v with
      | some r => .ok ⟨encoded, info, pluginInfo, ud', some r⟩
      | none => .error .buildErr
    else .ok ⟨encoded, info, pluginInfo, ud', none⟩

/-- The userData object RESTClient.update_player writes for a track
(rest.py lines 461-472): a copy of the track's user_data, with the
requestor written under the side-channel key when one is set. -/
def encodeUserData (t : Track) : List (String × JVal) :=
  match t.requestor with
  | some r => dictSet t.user_data requestorKey (.jstr (pyStrNat r))
  | none => t.user_data

/-- C7: encoding a track with requestor r writes str(r) under the
side-channel key; decoding that userData pops the key back out and
yields the same requestor r; and decoding a userData without the key
yields no requestor and leaves the dict as is. -/
theorem requestor_roundtrip (t : Track) (r : Nat)
    (hreq : t.requestor = some r) :
    List.lookup requestorKey (encodeUserData t)
      = some (.jstr (pyStrNat r)) ∧
    trackDecode t.encoded t.info t.pluginInfo (some (encodeUserData t))
      = .ok ⟨t.encoded, t.info, t.pluginInfo,
          dictPop (encodeUserData t) requestorKey, some r⟩ ∧
    (∀ ud, List.lookup requestorKey ud = none →
      trackDecode t.encoded t.info t.pluginInfo (some ud)
        = .ok ⟨t.encoded, t.info, t.pluginInfo, ud, none⟩) := by
  have hlook : List.lookup requestorKey (encodeUserData t)
      = some (.jstr (pyStrNat r)) := by
    rw [encodeUserData, hreq]
    exact lookup_dictSet t.user_data requestorKey (.jstr (pyStrNat r))
  refine ⟨hlook, ?_, ?_⟩
  · have htruthy : jtruthy (.jstr (pyStrNat r)) = true := by
      have := decChars_ne_nil r
      simpa [jtruthy, pyStrNat, List.isEmpty_iff] using this
    have hsnow : snowflakeOfJVal (.jstr (pyStrNat r)) = some r :=
      pyIntOfString_pyStrNat r
    simp [trackDecode, hlook, htruthy, hsnow]
  · intro ud hud
    simp [trackDecode, hud, dictPop_of_lookup_none ud requestorKey hud]

/-- A concrete track carrying user data and a requestor. -/
def trackW : Track :=
  ⟨"enc", sampleInfo "X", [], [("k", .jstr "v")], some 1234⟩

/-- Witness for the requestor round trip at a concrete track. -/
theorem requestor_roundtrip_witness :
    List.lookup requestorKey (encodeUserData trackW)
      = some (.jstr (pyStrNat 1234)) ∧
    trackDecode trackW.encoded trackW.info trackW.pluginInfo
        (some (encodeUserData trackW))
      = .ok ⟨trackW.encoded, trackW.info, trackW.pluginInfo,
          dictPop (encodeUserData trackW) requestorKey, some 1234⟩ ∧
    trackDecode trackW.encoded trackW.info trackW.pluginInfo
        (some [("k", JVal.jstr "v")])
      = .ok ⟨trackW.encoded, trackW.info, trackW.pluginInfo,
          [("k", JVal.jstr "v")], none⟩ :=
  ⟨(requestor_roundtrip trackW 1234 rfl).1,
    (requestor_roundtrip trackW 1234 rfl).2.1,
    (requestor_roundtrip trackW 1234 rfl).2.2 [("k", JVal.jstr "v")]
      rfl⟩

/-- A websocket frame as seen by Session._handle_ws_message: a TEXT
frame whose payload either decodes or fails to decode, or a
CLOSED/ERROR/other-typed frame. -/
inductive WSMsg where
  | text (parseOk : Bool) : WSMsg
  | closedMsg : WSMsg
  | errorMsg : WSMsg
  | otherMsg : WSMsg
deriving Repr, DecidableEq

/-- How the inner frame loop over a finite stream of frames ends. -/
inductive InnerRes where
  | closedStream : InnerRes
  | parseExc : InnerRes
  | stillOpen : InnerRes
deriving Repr, DecidableEq

/-- The inner receive loop of Session._websocket (session.py lines
436-442) over the frames the stream delivers: a TEXT frame that decodes
is dispatched and the loop keeps receiving; a TEXT frame that fails to
decode raises out of _handle_ws_message (session.py line 368); a
CLOSED, ERROR or other-typed frame makes _handle_ws_message return
False (session.py lines 375-383). stillOpen means the loop is still
blocked in receive. -/
def scanMsgs : List WSMsg → InnerRes
  | [] => .stillOpen
  | .text true :: rest => scanMsgs rest
  | .text false :: _ => .parseExc
  | .closedMsg :: _ => .closedStream
  | .errorMsg :: _ => .closedStream
  | .otherMsg :: _ => .closedStream

/-- The outcome of one connection attempt: the handshake raises, or the
connection opens and then delivers the given frames. -/
inductive AttemptRes where
  | connectFail : AttemptRes
  | connected (msgs : List WSMsg) : AttemptRes
deriving Repr, DecidableEq

/-- The session fields Session._websocket mutates. -/
structure WSState where
  status : SessionStatus
  remaining : Int
  attempts : Int
  transferred : Bool
deriving Repr, DecidableEq

/-- How Session._websocket ends: the coroutine returned, it is still
blocked waiting for network activity, or it raised. -/
inductive WSOutcome where
  | finished (s : WSState) : WSOutcome
  | pending (s : WSState) : WSOutcome
  | raised (s : WSState) (e : OErr) : WSOutcome
deriving Repr

/-- The session state an outcome carries. -/
def WSOutcome.wstate : WSOutcome → WSState
  | .finished s => s
  | .pending s => s
  | .raised s _ => s

/-- Session._websocket (session.py lines 385-451). When the bot
identity is unavailable the status is set (NOT_CONNECTED while
attempts remain, FAILURE otherwise) and SessionStartError raised.
Otherwise the retry loop runs while remaining attempts are at least 1:
it decrements the budget and attempts the handshake. A handshake
exception sets NOT_CONNECTED and breaks. On success the status becomes
CONNECTED and the inner loop reads frames: a CLOSED/ERROR/other frame
sets FAILURE, transfers the players and returns; a frame whose payload
fails to decode raises into the same exception handler, which sets
NOT_CONNECTED and breaks. Every branch of the body returns, breaks or
stays blocked, so the loop body never runs twice and only the first
element of the attempt trace matters; the while-else branch (budget
exhausted in the guard) sets NOT_CONNECTED. -/
def websocketRun (botPresent : Bool) (st : WSState)
    (trace : List AttemptRes) : WSOutcome :=
  if botPresent = false then
    if st.remaining > 0 then
      .raised { st with status := .notConnected } .sessionStart
    else
      .raised { st with status := .failure } .sessionStart
  else if st.remaining ≥ 1 then
    match trace.head? with
    | none => .pending { st with remaining := st.remaining - 1 }
    | some .connectFail =>
      .finished
        { st with remaining := st.remaining - 1, status := .notConnected }
    | some (.connected msgs) =>
      match scanMsgs msgs with
      | .closedStream =>
        .finished
          { st with
              remaining := st.remaining - 1
              status := .failure
              transferred := true }
      | .parseExc =>
        .finished
          { st with
              remaining := st.remaining - 1
              status := .notConnected }
      | .stillOpen =>
        .pending
          { st with remaining := st.remaining - 1, status := .connected }
  else .finished { st with status := .notConnected }

/-- C3 counterexample: after a successful handshake, a TEXT frame whose
payload fails to decode ends the loop through the exception handler
with status NOT_CONNECTED and no transfer - not, as claimed, with
status FAILURE and a transfer of the players. -/
theorem websocket_parse_failure_cex :
    websocketRun true ⟨.notConnected, 3, 3, false⟩
        [.connected [.text false]]
      = .finished ⟨.notConnected, 2, 3, false⟩ ∧
    ¬ ((websocketRun true ⟨.notConnected, 3, 3, false⟩
          [.connected [.text false]]).wstate.status
            = .failure ∧
        (websocketRun true ⟨.notConnected, 3, 3, false⟩
          [.connected [.text false]]).wstate.transferred = true) :=
  ⟨rfl, by decide⟩

/-- C3 as amended: the budget is decremented once per handshake
attempt; a post-handshake CLOSED/ERROR frame sets FAILURE, transfers
the players and returns without re-entering the retry loop; a
post-handshake parse failure raises into the connection-level handler,
which sets NOT_CONNECTED and breaks without a transfer; a handshake
exception sets NOT_CONNECTED; exhausting the budget in the while guard
leaves NOT_CONNECTED. -/
theorem websocket_loop_spec (st : WSState) (trace : List AttemptRes)
    (msgs : List WSMsg) :
    (st.remaining ≥ 1 → trace.head? = some (.connected msgs) →
      (scanMsgs msgs = .closedStream →
        websocketRun true st trace
          = .finished
              { st with
                  remaining := st.remaining - 1
                  status := .failure
                  transferred := true }) ∧
      (scanMsgs msgs = .parseExc →
        websocketRun true st trace
          = .finished
              { st with
                  remaining := st.remaining - 1
                  status := .notConnected })) ∧
    (st.remaining ≥ 1 → trace.head? = some .connectFail →
      websocketRun true st trace
        = .finished
            { st with
                remaining := st.remaining - 1
                status := .notConnected }) ∧
    (st.remaining < 1 →
      websocketRun true st trace
        = .finished { st with status := .notConnected }) := by
  refine ⟨?_, ?_, ?_⟩
  · intro hrem htr
    constructor
    · intro hscan
      simp [websocketRun, hrem, htr, hscan]
    · intro hscan
      simp [websocketRun, hrem, htr, hscan]
  · intro hrem htr
    simp [websocketRun, hrem, htr]
  · intro hrem
    simp [websocketRun, not_le.mpr hrem]

/-- Witness for the websocket loop theorem: a clean closure after two
dispatched frames transfers with one attempt consumed; a handshake
exception leaves NOT_CONNECTED; a zero budget never connects. -/
theorem websocket_loop_spec_witness :
    websocketRun true ⟨.notConnected, 3, 3, false⟩
        [.connected [.text true, .closedMsg]]
      = .finished ⟨.failure, 2, 3, true⟩ ∧
    websocketRun true ⟨.notConnected, 3, 3, false⟩ [.connectFail]
      = .finished ⟨.notConnected, 2, 3, false⟩ ∧
    websocketRun true ⟨.notConnected, 0, 3, false⟩ []
      = .finished ⟨.notConnected, 0, 3, false⟩ :=
  ⟨((websocket_loop_spec ⟨.notConnected, 3, 3, false⟩
        [.connected [.text true, .closedMsg]]
        [.text true, .closedMsg]).1 (by decide) rfl).1 rfl,
    (websocket_loop_spec ⟨.notConnected, 3, 3, false⟩ [.connectFail]
        []).2.1 (by decide) rfl,
    (websocket_loop_spec ⟨.notConnected, 0, 3, false⟩ [] []).2.2
      (by decide)⟩

/-- The primitive return types Session.request coerces directly from
the response text (session.py line 271). -/
inductive PrimKind where
  | pstr : PrimKind
  | pint : PrimKind
  | pbool : PrimKind
  | pfloat : PrimKind
deriving Repr, DecidableEq

/-- A return type requested from Session.request: a primitive coerced
from text, or a mapping/sequence type built from decoded JSON. -/
inductive RType where
  | prim (k : PrimKind) : RType
  | structured : RType
deriving Repr, DecidableEq

/-- A value Session.request returns. A float is carried by its literal
text, since its numeric value lives outside the model. -/
inductive RValue where
  | vstr (s : String) : RValue
  | vint (n : Int) : RValue
  | vbool (b : Bool) : RValue
  | vfloat (raw : String) : RValue
  | vjson (v : JVal) : RValue
deriving Repr

/-- Python's int on a possibly negated decimal string (leading plus
signs and surrounding whitespace are outside the model). -/
def pyIntOfText (s : String) : Option Int :=
  match s.data with
  | '-' :: rest => (pyIntOfChars rest).map (fun n => -(n : Int))
  | l => (pyIntOfChars l).map (fun n => (n : Int))

/-- A non-empty run of decimal digit characters. -/
def digitsNonEmpty (l : List Char) : Bool := !l.isEmpty && l.all charIsDigit

/-- A plain decimal float literal: digits with an optional fractional
part (exponents, inf and nan are outside the model). -/
def isFloatChars (l : List Char) : Bool :=
  match l.dropWhile charIsDigit with
  | [] => !(l.takeWhile charIsDigit).isEmpty
  | '.' :: frac =>
    !(l.takeWhile charIsDigit).isEmpty && digitsNonEmpty frac
  | _ => false

/-- Python's float acceptance on a possibly negated literal. -/
def isFloatText (s : String) : Bool :=
  match s.data with
  | '-' :: rest => isFloatChars rest
  | l => isFloatChars l

/-- The coercion `return_type(payload)` for the primitive return types:
str keeps the text, int parses it (raising ValueError otherwise), bool
is the text's non-emptiness, float parses the literal. -/
def coercePrim (k : PrimKind) (s : String) : Except OErr RValue :=
  match k with
  | .pstr => .ok (.vstr s)
  | .pint =>
    match pyIntOfText s with
    | some n => .ok (.vint n)
    | none => .error .valueErr
  | .pbool => .ok (.vbool (!s.data.isEmpty))
  | .pfloat =>
    if isFloatText s then .ok (.vfloat s) else .error .valueErr

/-- A response body: its raw text and the result of JSON-decoding it
(none when the text is not valid JSON). -/
structure RespBody where
  text : String
  asJson : Option JVal
deriving Repr

/-- Python's int on a decoded JSON value (the timestamp coercion in
RestRequestError._from_payload). -/
def intOfJVal : JVal → Option Int
  | .jnum n => some n
  | .jbool b => some (if b then 1 else 0)
  | .jstr s => pyIntOfText s
  | _ => none

/-- RestRequestError._from_payload (errors.py lines 181-202): the
payload must be a JSON object carrying timestamp, status, error,
message and path, with an int-coercible timestamp; trace is optional.
Any failure in this construction is caught by the caller. -/
def restErrOfJVal : JVal → Option RestErrPayload
  | .jobj fs =>
    match List.lookup "timestamp" fs, List.lookup "status" fs,
        List.lookup "error" fs, List.lookup "message" fs,
        List.lookup "path" fs with
    | some ts, some st, some er, some ms, some pa =>
      match intOfJVal ts with
      | some t => some ⟨t, st, er, ms, pa, List.lookup "trace" fs⟩
      | none => none
    | _, _, _, _, _ => none
  | _ => none

/-- RestRequestError.from_payload applied to a response body: decode
the text as JSON and build the structured error from it. -/
def restErrOfBody (b : RespBody) : Option RestErrPayload :=
  b.asJson.bind restErrOfJVal

/-- Session.request (session.py lines 170-279) after the HTTP exchange:
a 204 with a requested return type raises RestEmptyError; a status of
at least 400 raises RestRequestError when the non-empty body parses
into the error schema and RestStatusError otherwise; no requested type
returns nothing; a primitive type is coerced from the text; a
structured type is built from the JSON decoding of the text. -/
def requestFn (status : Nat) (reason : Option String) (rt : Option RType)
    (body : RespBody) : Except OErr (Option RValue) :=
  if status = 204 ∧ rt.isSome then .error .restEmpty
  else if status ≥ 400 then
    if body.text = "" then .error (.restStatus status reason)
    else
      match restErrOfBody body with
      | some e => .error (.restRequest e)
      | none => .error (.restStatus status reason)
  else
    match rt with
    | none => .ok none
    | some (.prim k) => (coercePrim k body.text).map some
    | some .structured =>
      match body.asJson with
      | none => .error .buildErr
      | some v => .ok (some (.vjson v))

/-- C4: the contract of Session.request - a 204 with a non-null
expected type raises the empty-body error; a status of at least 400
raises the structured request error exactly when the non-empty body
parses into the server's error schema and the plain status error
otherwise; a null expected type returns nothing; a primitive expected
type is coerced directly from the text and an object/array type is
built from the JSON decoding. -/
theorem request_spec (status : Nat) (reason : Option String)
    (rt : Option RType) (body : RespBody) :
    (status = 204 → rt ≠ none →
      requestFn status reason rt body = .error .restEmpty) ∧
    (status ≥ 400 →
      (body.text = "" →
        requestFn status reason rt body
          = .error (.restStatus status reason)) ∧
      (∀ e, body.text ≠ "" → restErrOfBody body = some e →
        requestFn status reason rt body = .error (.restRequest e)) ∧
      (body.text ≠ "" → restErrOfBody body = none →
        requestFn status reason rt body
          = .error (.restStatus status reason))) ∧
    (status < 400 → rt = none →
      requestFn status reason rt body = .ok none) ∧
    (status ≠ 204 → status < 400 → ∀ k, rt = some (.prim k) →
      requestFn status reason rt body
        = (coercePrim k body.text).map some) ∧
    (status ≠ 204 → status < 400 → rt = some .structured →
      (body.asJson = none →
        requestFn status reason rt body = .error .buildErr) ∧
      (∀ v, body.asJson = some v →
        requestFn status reason rt body = .ok (some (.vjson v)))) := by
  refine ⟨?_, ?_, ?_, ?_, ?_⟩
  · intro h204 hrt
    have hsome : rt.isSome = true := Option.ne_none_iff_isSome.mp hrt
    simp [requestFn, h204, hsome]
  · intro hge
    have h204 : ¬ (status = 204 ∧ rt.isSome = true) := by
      rintro ⟨rfl, -⟩
      omega
    refine ⟨?_, ?_, ?_⟩
    · intro hbody
      simp [requestFn, h204, hge, hbody]
    · intro e hbody herr
      simp [requestFn, h204, hge, hbody, herr]
    · intro hbody herr
      simp [requestFn, h204, hge, hbody, herr]
  · intro hlt hnone
    have hge : ¬ (status ≥ 400) := not_le.mpr hlt
    simp [requestFn, hnone, hge]
  · intro h204 hlt k hk
    have hge : ¬ (status ≥ 400) := not_le.mpr hlt
    simp [requestFn, hk, h204, hge]
  · intro h204 hlt hk
    have hge : ¬ (status ≥ 400) := not_le.mpr hlt
    constructor
    · intro hj
      simp [requestFn, hk, h204, hge, hj]
    · intro v hj
      simp [requestFn, hk, h204, hge, hj]

/-- A concrete 404 body that parses into the server error schema. -/
def errBodyW : RespBody :=
  ⟨"x", some (.jobj
    [("timestamp", .jnum 1700000000000), ("status", .jnum 404),
      ("error", .jstr "Not Found"), ("message", .jstr "missing"),
      ("path", .jstr "/v4/x")])⟩

/-- Witness for the request theorem: a 204 with a requested type, a 404
with a schema body, a 404 with an empty body, a 200 fire-and-forget,
a 200 int coercion and a 200 structured build, each at concrete
inputs. -/
theorem request_spec_witness :
    requestFn 204 none (some .structured) ⟨"", none⟩
      = .error .restEmpty ∧
    requestFn 404 (some "Not Found") (some .structured) errBodyW
      = .error (.restRequest
          ⟨1700000000000, .jnum 404, .jstr "Not Found", .jstr "missing",
            .jstr "/v4/x", none⟩) ∧
    requestFn 404 (some "Not Found") none ⟨"", none⟩
      = .error (.restStatus 404 (some "Not Found")) ∧
    requestFn 200 none none ⟨"ok", none⟩ = .ok none ∧
    requestFn 200 none (some (.prim .pint)) ⟨"123", none⟩
      = (coercePrim .pint "123").map some ∧
    requestFn 200 none (some .structured) ⟨"[1]", some (.jarr [.jnum 1])⟩
      = .ok (some (.vjson (.jarr [.jnum 1]))) :=
  ⟨(request_spec 204 none (some .structured) ⟨"", none⟩).1 rfl
      (by simp),
    (request_spec 404 (some "Not Found") (some .structured)
        errBodyW).2.1 (by omega) |>.2.1
      ⟨1700000000000, .jnum 404, .jstr "Not Found", .jstr "missing",
        .jstr "/v4/x", none⟩ (by simp [errBodyW]) rfl,
    ((request_spec 404 (some "Not Found") none ⟨"", none⟩).2.1
      (by omega)).1 rfl,
    (request_spec 200 none none ⟨"ok", none⟩).2.2.1 (by omega) rfl,
    (request_spec 200 none (some (.prim .pint)) ⟨"123", none⟩).2.2.2.1
      (by omega) (by omega) .pint rfl,
    ((request_spec 200 none (some .structured)
        ⟨"[1]", some (.jarr [.jnum 1])⟩).2.2.2.2 (by omega) (by omega)
      rfl).2 (.jarr [.jnum 1]) rfl⟩

end Ongaku
